import Mathlib

/-!
Verification of the Crystal personal-assistant core against its
natural-language specification.

The development shallowly embeds the Python source of the repository:

* `src/crystal/services/ai_service.py`    — hybrid generation coordinator
* `src/crystal/core/crystal_assistant.py` — assistant persona
* `src/crystal/core/orchestrator.py`      — persona registry / router
* `src/crystal/services/task_scheduler.py`— job metadata directory
* `src/crystal/services/file_service.py`  — allow-listed file operations

Conventions of the embedding:

* Python strings are Lean `String`; every string operation used by the
  source is re-implemented over `String.data` (`List Char`) so that all
  definitions evaluate by `rfl`/`decide`.
* External effects (the Ollama and OpenAI clients, the filesystem, the
  cron parser of the scheduling library) are oracles passed in as
  function parameters; a raised exception is an `Except.error`.
* Logging calls are pure no-ops and are omitted.
* Python dictionaries with string keys are association lists in
  insertion order; an absent optional key is modelled by its lookup
  default.
-/

namespace Crystal

/-- Substring search on character lists: does `pat` occur inside `l`?
Models the Python `pat in s` operator on strings. -/
def listSearch (pat : List Char) : List Char → Bool
  | [] => pat.isEmpty
  | c :: rest => pat.isPrefixOf (c :: rest) || listSearch pat rest

/-- Python `pat in s` for strings. -/
def strContainsSub (s pat : String) : Bool :=
  listSearch pat.data s.data

/-- Python `str.lower()` (ASCII case folding, which is all the source uses). -/
def strToLower (s : String) : String :=
  ⟨s.data.map Char.toLower⟩

/-- Python `s.startswith(p)`. -/
def strStartsWith (s p : String) : Bool :=
  p.data.isPrefixOf s.data

/-- Python `s.strip()`: drop leading and trailing whitespace. -/
def strTrim (s : String) : String :=
  ⟨((s.data.dropWhile Char.isWhitespace).reverse.dropWhile Char.isWhitespace).reverse⟩

/-- Python `sep.join(parts)`. -/
def joinSep (sep : String) : List String → String
  | [] => ""
  | [x] => x
  | x :: y :: xs => x ++ sep ++ joinSep sep (y :: xs)

/-- Behaviour flags and model names read from `config/settings.py`
(`Settings`): the fields of the global `settings` object consulted by
`AIService`. -/
structure AIConfig where
  use_local_first : Bool
  fallback_to_api : Bool
  openai_model : String
  default_local_model : String
  openai_max_tokens : Nat
  deriving Repr, DecidableEq

/-- Mutable state of an initialized `AIService` object: whether each
client was constructed during `initialize`, and the local model names
reported by Ollama. -/
structure AIService where
  openai_client : Bool
  ollama_client : Bool
  available_local_models : List String
  deriving Repr, DecidableEq

/-- One entry of a conversation history list.  In the source these are
Python dicts; the embedding fixes the four keys the source reads
(`role`/`content` in the AI service, `user`/`assistant` in the persona),
with a missing key modelled by the default the source supplies. -/
structure ConvEntry where
  role : String
  content : String
  user : String
  assistant : String
  deriving Repr, DecidableEq

/-- Conversation context.  `None`, `{}` and `{'conversation_history': []}`
behave identically at every use site (all are guarded by truthiness), so
the context is modelled as the bare history list. -/
abbrev Context := List ConvEntry

/-- A chat-completion message sent to the remote backend. -/
structure ChatMsg where
  role : String
  content : String
  deriving Repr, DecidableEq

/-- Record of one backend invocation, used to state non-invocation
properties. -/
inductive BackendCall where
  | localCall (model : String) (prompt : String)
  | remoteCall (model : String)
  deriving Repr, DecidableEq

/-- Predicate picking out local (Ollama) backend invocations. -/
def BackendCall.isLocalCall : BackendCall → Bool
  | .localCall _ _ => true
  | .remoteCall _ => false

/-- Oracles for the two generation backends.  `localGen` models
`ollama_client.generate` (model, prompt, num_predict); `openaiGen`
models `openai_client.chat.completions.create` followed by the read of
`response.choices[0].message.content` (model, messages, max_tokens) —
`Except.error` is a raised exception, `Except.ok none` a null content
field. -/
structure Backends where
  localGen : String → String → Nat → Except String String
  openaiGen : String → List ChatMsg → Nat → Except String (Option String)

/-- Python `max_tokens or settings.openai_max_tokens`: `None` and `0`
both select the default. -/
def resolveMaxTokens (maxTokens : Option Nat) (dflt : Nat) : Nat :=
  match maxTokens with
  | none => dflt
  | some t => if t = 0 then dflt else t

/-- Embeds `AIService._is_local_model` (ai_service.py lines 234-236). -/
def is_local_model (svc : AIService) (model : String) : Bool :=
  model.data.contains ':' || svc.available_local_models.contains model

/-- Embeds `AIService._is_openai_model` (ai_service.py lines 238-240). -/
def is_openai_model (model : String) : Bool :=
  strStartsWith model "gpt-" || model = "gpt-3.5-turbo" || model = "gpt-4"

/-- Embeds `AIService._select_optimal_model` (ai_service.py lines 216-232). -/
def select_optimal_model (cfg : AIConfig) (svc : AIService) (message : String) : String :=
  if (500 < message.length
      || ["analyze", "complex", "detailed"].any (fun w => strContainsSub (strToLower message) w))
     && svc.openai_client then
    cfg.openai_model
  else if !svc.available_local_models.isEmpty then
    cfg.default_local_model
  else
    cfg.openai_model

/-- Embeds `AIService._build_prompt` (ai_service.py lines 242-255). -/
def build_prompt (message : String) (context : Context) : String :=
  let base :=
    if !context.isEmpty then
      "Previous conversation:\n"
        ++ joinSep "" ((context.drop (context.length - 3)).map
             (fun m => m.role ++ ": " ++ m.content ++ "\n"))
        ++ "\n"
    else ""
  base ++ "User: " ++ message ++ "\nAssistant:"

/-- Embeds the message-list construction of `AIService._generate_openai_response`
(ai_service.py lines 184-198). -/
def build_chat_messages (message : String) (context : Context) : List ChatMsg :=
  let hist := if !context.isEmpty then context.map (fun m => ChatMsg.mk m.role m.content) else []
  ChatMsg.mk "system" "You are a helpful personal assistant named Ruby." :: hist
    ++ [ChatMsg.mk "user" message]

/-- Embeds `AIService._generate_local_response` (ai_service.py lines 137-171);
returns the optional text together with the backend calls issued.  A raised
exception is caught and mapped to `none`. -/
def generate_local_response (b : Backends) (cfg : AIConfig) (svc : AIService)
    (message model : String) (context : Context) (maxTokens : Option Nat) :
    Option String × List BackendCall :=
  if !svc.ollama_client then
    (none, [])
  else
    let prompt := build_prompt message context
    match b.localGen model prompt (resolveMaxTokens maxTokens cfg.openai_max_tokens) with
    | .ok s => (some s, [.localCall model prompt])
    | .error _ => (none, [.localCall model prompt])

/-- Embeds `AIService._generate_openai_response` (ai_service.py lines 173-214);
`Except.error` is a raised exception.  A null content field is replaced by the
apology string; note that an empty content string is returned verbatim. -/
def generate_openai_response (b : Backends) (cfg : AIConfig) (svc : AIService)
    (message model : String) (context : Context) (maxTokens : Option Nat) :
    Except String String × List BackendCall :=
  if !svc.openai_client then
    (.error "OpenAI client not initialized", [])
  else
    match b.openaiGen model (build_chat_messages message context)
        (resolveMaxTokens maxTokens cfg.openai_max_tokens) with
    | .error e => (.error e, [.remoteCall model])
    | .ok none => (.ok "I apologize, but I couldn\x27t generate a response.", [.remoteCall model])
    | .ok (some content) => (.ok content, [.remoteCall model])

/-- Literal degraded-service message of ai_service.py line 131. -/
def degraded_service_message : String :=
  "I\x27m sorry, but I\x27m unable to process your request right now. Please check the AI service configuration."

/-- Body of the `try` block of `AIService.generate_response`
(ai_service.py lines 106-131), after the model has been resolved.
`Except.error` is an exception escaping the block. -/
def generate_dispatch (b : Backends) (cfg : AIConfig) (svc : AIService)
    (message model : String) (context : Context) (maxTokens : Option Nat) :
    Except String String × List BackendCall :=
  if cfg.use_local_first && is_local_model svc model then
    let attempt : Option String × List BackendCall :=
      if svc.available_local_models.contains model then
        generate_local_response b cfg svc message model context maxTokens
      else (none, [])
    match attempt with
    | (some s, calls) =>
      if s ≠ "" then (.ok s, calls)
      else if cfg.fallback_to_api && svc.openai_client then
        let fb := generate_openai_response b cfg svc message cfg.openai_model context maxTokens
        (fb.1, calls ++ fb.2)
      else (.ok degraded_service_message, calls)
    | (none, calls) =>
      if cfg.fallback_to_api && svc.openai_client then
        let fb := generate_openai_response b cfg svc message cfg.openai_model context maxTokens
        (fb.1, calls ++ fb.2)
      else (.ok degraded_service_message, calls)
  else if svc.openai_client && is_openai_model model then
    generate_openai_response b cfg svc message model context maxTokens
  else if svc.ollama_client && !svc.available_local_models.isEmpty then
    match svc.available_local_models with
    | [] => (.ok degraded_service_message, [])
    | m0 :: _ =>
      match generate_local_response b cfg svc message m0 context maxTokens with
      | (some s, calls) =>
        if s ≠ "" then (.ok s, calls) else (.ok degraded_service_message, calls)
      | (none, calls) => (.ok degraded_service_message, calls)
  else
    (.ok degraded_service_message, [])

/-- Embeds `AIService.generate_response` (ai_service.py lines 73-135),
additionally returning the list of backend invocations.  The service is
taken to be initialized.  `if not model` treats both `None` and the
empty string as absent; the surrounding `except` clause converts any
escaping exception into the error-prefixed string. -/
def generate_response_traced (b : Backends) (cfg : AIConfig) (svc : AIService)
    (message : String) (modelHint : Option String) (context : Context)
    (maxTokens : Option Nat) : String × List BackendCall :=
  let model :=
    match modelHint with
    | none => select_optimal_model cfg svc message
    | some m => if m = "" then select_optimal_model cfg svc message else m
  let step := generate_dispatch b cfg svc message model context maxTokens
  match step.1 with
  | .ok s => (s, step.2)
  | .error e => ("I encountered an error while processing your request: " ++ e, step.2)

/-- Embeds `AIService.generate_response` (the returned text alone). -/
def generate_response (b : Backends) (cfg : AIConfig) (svc : AIService)
    (message : String) (modelHint : Option String) (context : Context)
    (maxTokens : Option Nat) : String :=
  (generate_response_traced b cfg svc message modelHint context maxTokens).1

/-! Concrete fixtures used to evaluate the embedding at specific inputs.
`cfgDefault` is the flag configuration of `config/settings.py` defaults. -/

/-- Default settings values from `config/settings.py`. -/
def cfgDefault : AIConfig :=
  { use_local_first := true
    fallback_to_api := true
    openai_model := "gpt-3.5-turbo"
    default_local_model := "llama3.1:8b"
    openai_max_tokens := 1000 }

/-- Settings with the local-first flag turned off. -/
def cfgRemoteFirst : AIConfig :=
  { cfgDefault with use_local_first := false }

/-- Service state with only the OpenAI client configured. -/
def svcRemoteOnly : AIService :=
  { openai_client := true, ollama_client := false, available_local_models := [] }

/-- Service state with only the Ollama client configured. -/
def svcLocalOnly : AIService :=
  { openai_client := false, ollama_client := true, available_local_models := ["llama3.1:8b"] }

/-- Service state with no backend configured at all. -/
def svcNone : AIService :=
  { openai_client := false, ollama_client := false, available_local_models := [] }

/-- Service state with both backends configured. -/
def svcBoth : AIService :=
  { openai_client := true, ollama_client := true, available_local_models := ["llama3.1:8b"] }

/-- Backends where the local model raises and the remote API answers with a
present but empty content string. -/
def bEmptyContent : Backends :=
  ⟨fun _ _ _ => .error "connection refused", fun _ _ _ => .ok (some "")⟩

/-- Backends where the local model raises and the remote API answers with
fixed non-empty text. -/
def bRemoteOk : Backends :=
  ⟨fun _ _ _ => .error "connection refused", fun _ _ _ => .ok (some "remote-output")⟩

/-- Backends where both oracles answer with fixed non-empty text. -/
def bBothOk : Backends :=
  ⟨fun _ _ _ => .ok "local-output", fun _ _ _ => .ok (some "remote-output")⟩

/-! Helper lemmas shared by the theorems below. -/

/-- Appending to a non-empty string yields a non-empty string. -/
theorem str_append_ne_empty (s t : String) (hs : s ≠ "") : s ++ t ≠ "" := by
  intro hc
  apply hs
  have h3 : s.data ++ t.data = [] := congrArg String.data hc
  exact String.ext (List.append_eq_nil.mp h3).1

/-- If the remote oracle never yields a present-but-empty content string,
`_generate_openai_response` never returns the empty string. -/
theorem openai_fst_ok_ne_empty (b : Backends) (cfg : AIConfig) (svc : AIService)
    (message model : String) (context : Context) (maxTokens : Option Nat)
    (h : ∀ m msgs t, b.openaiGen m msgs t ≠ .ok (some "")) {s : String}
    (heq : (generate_openai_response b cfg svc message model context maxTokens).1 = .ok s) :
    s ≠ "" := by
  simp only [generate_openai_response] at heq
  split at heq
  · exact absurd heq (by simp)
  · split at heq
    · exact absurd heq (by simp)
    · simp only [Except.ok.injEq] at heq
      subst heq
      decide
    · rename_i content hgen
      simp only [Except.ok.injEq] at heq
      subst heq
      intro hc
      subst hc
      exact h _ _ _ hgen

/-- If the remote oracle never yields a present-but-empty content string,
every `Except.ok` outcome of the dispatch step is a non-empty string. -/
theorem dispatch_fst_ok_ne_empty (b : Backends) (cfg : AIConfig) (svc : AIService)
    (message model : String) (context : Context) (maxTokens : Option Nat)
    (h : ∀ m msgs t, b.openaiGen m msgs t ≠ .ok (some "")) {s : String}
    (heq : (generate_dispatch b cfg svc message model context maxTokens).1 = .ok s) :
    s ≠ "" := by
  simp only [generate_dispatch] at heq
  split at heq
  · split at heq
    · split at heq
      · injection heq with heq2
        subst heq2
        assumption
      · split at heq
        · exact openai_fst_ok_ne_empty b cfg svc message cfg.openai_model context maxTokens h heq
        · injection heq with heq2
          subst heq2
          decide
    · split at heq
      · exact openai_fst_ok_ne_empty b cfg svc message cfg.openai_model context maxTokens h heq
      · injection heq with heq2
        subst heq2
        decide
  · split at heq
    · exact openai_fst_ok_ne_empty b cfg svc message model context maxTokens h heq
    · split at heq
      · split at heq
        · injection heq with heq2
          subst heq2
          decide
        · rename_i mhead
          split at heq
          · split at heq
            · injection heq with heq2
              subst heq2
              assumption
            · injection heq with heq2
              subst heq2
              decide
          · injection heq with heq2
            subst heq2
            decide
      · injection heq with heq2
        subst heq2
        decide

/-- Dispatch produces the degraded-service message whenever no OpenAI client
is configured and no usable local backend exists. -/
theorem dispatch_degraded_when_unconfigured (b : Backends) (cfg : AIConfig)
    (svc : AIService) (message model : String) (context : Context) (maxTokens : Option Nat)
    (h1 : svc.openai_client = false)
    (h2 : svc.ollama_client = false ∨ svc.available_local_models = []) :
    (generate_dispatch b cfg svc message model context maxTokens).1
      = .ok degraded_service_message := by
  rcases h2 with h2 | h2
  · simp only [generate_dispatch, generate_local_response, h1, h2, Bool.and_false,
      Bool.false_and, Bool.not_false, if_true, ite_self, Bool.false_eq_true, if_false]
  · simp only [generate_dispatch, h1, h2, List.contains_nil, Bool.and_false,
      Bool.false_and, List.isEmpty_nil, Bool.not_true, Bool.false_eq_true, if_false]
    split
    · rfl
    · rfl

/-- C2: with no OpenAI client configured and no usable local backend (no
Ollama client or an empty local-model list), `generate_response` returns
exactly the literal degraded-service string, for every message, model hint,
context and max-token argument. -/
theorem generate_response_degraded_when_no_backend (b : Backends) (cfg : AIConfig)
    (svc : AIService) (message : String) (modelHint : Option String)
    (context : Context) (maxTokens : Option Nat)
    (h1 : svc.openai_client = false)
    (h2 : svc.ollama_client = false ∨ svc.available_local_models = []) :
    generate_response b cfg svc message modelHint context maxTokens
      = degraded_service_message := by
  simp only [generate_response, generate_response_traced]
  rw [dispatch_degraded_when_unconfigured b cfg svc message _ context maxTokens h1 h2]

/-- Witness for C2 at a concrete input. -/
theorem generate_response_degraded_when_no_backend_witness :
    generate_response bBothOk cfgDefault svcNone "hello" (some "llama3.1:8b") [] none
      = degraded_service_message :=
  generate_response_degraded_when_no_backend bBothOk cfgDefault svcNone "hello"
    (some "llama3.1:8b") [] none rfl (Or.inl rfl)

/-- C1 counterexample: with an OpenAI client configured and a remote backend
whose completion carries a present but empty content string, the coordinator
returns the empty string, so the returned text is not always non-empty. -/
theorem generate_response_empty_on_empty_remote_content :
    generate_response bEmptyContent cfgDefault svcRemoteOnly "hi" (some "gpt-4") [] none
      = "" := by
  rfl

/-- C1 (amended): `generate_response` is total (every backend exception is
converted into an apology or error string), and its result is non-empty
provided the remote backend never answers with a present-but-empty content
string — the only path on which an empty result can escape
(ai_service.py lines 213-214). -/
theorem generate_response_nonempty_without_empty_content (b : Backends) (cfg : AIConfig)
    (svc : AIService) (message : String) (modelHint : Option String)
    (context : Context) (maxTokens : Option Nat)
    (h : ∀ m msgs t, b.openaiGen m msgs t ≠ .ok (some "")) :
    generate_response b cfg svc message modelHint context maxTokens ≠ "" := by
  simp only [generate_response, generate_response_traced]
  split
  · rename_i s hs
    exact dispatch_fst_ok_ne_empty _ _ _ _ _ _ _ h hs
  · exact str_append_ne_empty _ _ (by decide)

/-- Witness for the amended C1 at a concrete input. -/
theorem generate_response_nonempty_without_empty_content_witness :
    generate_response bRemoteOk cfgDefault svcRemoteOnly "hello" none [] none ≠ "" :=
  generate_response_nonempty_without_empty_content bRemoteOk cfgDefault svcRemoteOnly
    "hello" none [] none (by
      intro m msgs t hc
      rw [show bRemoteOk.openaiGen m msgs t = Except.ok (some "remote-output") from rfl] at hc
      exact absurd (Option.some.inj (Except.ok.inj hc)) (by decide))

/-- Dispatch result under the C3 hypotheses: the fallback path re-targets the
configured default remote model. -/
theorem dispatch_fallback_to_default_remote (b : Backends) (cfg : AIConfig)
    (svc : AIService) (message model : String) (context : Context) (maxTokens : Option Nat)
    (h1 : cfg.use_local_first = true)
    (h2 : is_local_model svc model = true)
    (h3 : cfg.fallback_to_api = true)
    (h4 : svc.openai_client = true)
    (hloc : ∀ s, (generate_local_response b cfg svc message model context maxTokens).1
      = some s → s = "") :
    (generate_dispatch b cfg svc message model context maxTokens).1
      = (generate_openai_response b cfg svc message cfg.openai_model context maxTokens).1 := by
  simp only [generate_dispatch, h1, h2, h3, h4, Bool.and_self, if_true, true_and]
  cases hc : svc.available_local_models.contains model with
  | false =>
    simp only [hc, Bool.false_eq_true, if_false]
  | true =>
    simp only [hc, if_true]
    rcases hA : generate_local_response b cfg svc message model context maxTokens with ⟨ro, calls⟩
    rcases ro with _ | s'
    · rfl
    · have hs : s' = "" := hloc s' (by rw [hA])
      subst hs
      simp only [ne_eq, not_true_eq_false, if_false]

/-- C3: when `use_local_first` is on, the resolved identifier classifies as
local, the local attempt fails or yields no text, `fallback_to_api` is on and
an OpenAI client is configured, `generate_response` returns the remote
backend output produced with `settings.openai_model` — not with the original
hint. -/
theorem generate_response_fallback_uses_default_remote_model (b : Backends)
    (cfg : AIConfig) (svc : AIService) (message model : String) (context : Context)
    (maxTokens : Option Nat) (r : String)
    (h1 : cfg.use_local_first = true)
    (h2 : is_local_model svc model = true)
    (h3 : cfg.fallback_to_api = true)
    (h4 : svc.openai_client = true)
    (h5 : model ≠ "")
    (hloc : ∀ s, (generate_local_response b cfg svc message model context maxTokens).1
      = some s → s = "")
    (hrem : (generate_openai_response b cfg svc message cfg.openai_model context maxTokens).1
      = .ok r) :
    generate_response b cfg svc message (some model) context maxTokens = r := by
  simp only [generate_response, generate_response_traced, if_neg h5]
  rw [dispatch_fallback_to_default_remote b cfg svc message model context maxTokens
    h1 h2 h3 h4 hloc, hrem]

/-- Witness for C3 at a concrete input: the local model raises, the remote
answers fixed text, and that text is returned. -/
theorem generate_response_fallback_uses_default_remote_model_witness :
    generate_response bRemoteOk cfgDefault svcBoth "hi" (some "llama3.1:8b") [] none
      = "remote-output" :=
  generate_response_fallback_uses_default_remote_model bRemoteOk cfgDefault svcBoth
    "hi" "llama3.1:8b" [] none "remote-output" rfl (by decide) rfl rfl (by decide)
    (fun s hs => Option.noConfusion hs) rfl

/-- C4 counterexample: with `use_local_first=false` and the remote-classified
hint `gpt-4`, but no OpenAI client and an available Ollama model, the
coordinator does invoke the local backend (the last-resort branch of
ai_service.py lines 124-128). -/
theorem local_backend_invoked_despite_remote_hint :
    ((generate_response_traced bBothOk cfgRemoteFirst svcLocalOnly "hi" (some "gpt-4") [] none).2.any
      BackendCall.isLocalCall) = true := by
  rfl

/-- Dispatch trace under the amended C4 hypotheses contains no local call. -/
theorem dispatch_trace_remote_only (b : Backends) (cfg : AIConfig) (svc : AIService)
    (message m : String) (context : Context) (maxTokens : Option Nat)
    (h1 : cfg.use_local_first = false)
    (h2 : is_openai_model m = true)
    (h3 : svc.openai_client = true) :
    ((generate_dispatch b cfg svc message m context maxTokens).2.all
      (fun c => !c.isLocalCall)) = true := by
  simp only [generate_dispatch, h1, h2, h3, Bool.false_and, Bool.and_self,
    Bool.false_eq_true, if_false, if_true]
  simp only [generate_openai_response, h3, Bool.not_true, Bool.false_eq_true, if_false]
  split
  · rfl
  · rfl
  · rfl

/-- C4 (amended): when `use_local_first` is false, the supplied identifier
classifies as remote, and an OpenAI client is configured, `generate_response`
never invokes the local backend. -/
theorem no_local_call_with_remote_hint_and_openai (b : Backends) (cfg : AIConfig)
    (svc : AIService) (message m : String) (context : Context) (maxTokens : Option Nat)
    (h1 : cfg.use_local_first = false)
    (h2 : is_openai_model m = true)
    (h3 : svc.openai_client = true) :
    ((generate_response_traced b cfg svc message (some m) context maxTokens).2.all
      (fun c => !c.isLocalCall)) = true := by
  have hm : m ≠ "" := by
    intro he
    subst he
    exact absurd h2 (by decide)
  simp only [generate_response_traced, if_neg hm]
  split
  · exact dispatch_trace_remote_only b cfg svc message m context maxTokens h1 h2 h3
  · exact dispatch_trace_remote_only b cfg svc message m context maxTokens h1 h2 h3

/-- Witness for the amended C4 at a concrete input. -/
theorem no_local_call_with_remote_hint_and_openai_witness :
    ((generate_response_traced bBothOk cfgRemoteFirst svcBoth "hi" (some "gpt-4") [] none).2.all
      (fun c => !c.isLocalCall)) = true :=
  no_local_call_with_remote_hint_and_openai bBothOk cfgRemoteFirst svcBoth "hi" "gpt-4"
    [] none rfl (by decide) rfl

/-! Persona (`crystal/core/crystal_assistant.py`) and orchestrator
(`crystal/core/orchestrator.py`). -/

/-- Per-assistant configuration dict (`config/settings.py`,
`AssistantConfig.RUBY`): the keys read by `CrystalAssistant`. -/
structure AssistantConfig where
  instructions_file : Option String
  preferred_model : Option String
  capabilities : List (String × String)

/-- Generic greeting substituted for missing instructions
(crystal_assistant.py lines 68, 86, 90). -/
def generic_greeting (name : String) : String :=
  "I am " ++ name ++ ", your assistant. How can I help you today?"

/-- Embeds `CrystalAssistant._load_instructions` (crystal_assistant.py lines
62-90).  The filesystem is the oracle `fs`: `fs path` is the file content
when the path exists and is readable, `none` otherwise; `if not
instructions_file` treats a missing and an empty configured path alike. -/
def load_instructions (name : String) (cfg : AssistantConfig)
    (fs : String → Option String) : String :=
  match cfg.instructions_file with
  | none => generic_greeting name
  | some f =>
    if f = "" then generic_greeting name
    else
      match fs f with
      | some content => content
      | none => generic_greeting name

/-- Embeds `CrystalAssistant._build_context_prompt` (crystal_assistant.py
lines 196-232).  `personality` is the trait map parsed at initialization. -/
def build_context_prompt (name instructions : String)
    (capabilities personality : List (String × String)) (message : String)
    (context : Context) : String :=
  let parts1 := if instructions ≠ "" then [instructions] else []
  let parts2 :=
    if capabilities ≠ [] then
      ["Available capabilities:\n"
        ++ joinSep "\n" (capabilities.map (fun p => "- " ++ p.1 ++ ": " ++ p.2))]
    else []
  let parts3 :=
    if personality ≠ [] then
      ["Personality traits to embody:\n"
        ++ joinSep "\n" (personality.map (fun p => "- " ++ p.1 ++ ": " ++ p.2))]
    else []
  let parts4 :=
    if context ≠ [] then
      "Recent conversation context:"
        :: (context.drop (context.length - 3)).flatMap
             (fun e => ["User: " ++ e.user, name ++ ": " ++ e.assistant])
    else []
  joinSep "\n\n" (parts1 ++ parts2 ++ parts3 ++ parts4
    ++ ["---", "Current user message: " ++ message,
        "Please respond as " ++ name
          ++ ", following all instructions and embodying the personality traits above."])

/-- Inner response dict built by `CrystalAssistant.process_message`
(message and actions; the metadata map is diagnostic only). -/
structure AssistantResponse where
  message : String
  actions : List String
  deriving Repr, DecidableEq

/-- Embeds `CrystalAssistant.process_message` (crystal_assistant.py lines
141-194): reload instructions, build the composite prompt, delegate to the
AI service with the configured preferred model, and strip the reply.  In the
embedding the delegation is total (`generate_response` converts every
backend failure into a string), so the success-shaped dict is always
produced. -/
def assistant_process_message (b : Backends) (acfg : AIConfig) (svc : AIService)
    (fs : String → Option String) (name : String) (cfg : AssistantConfig)
    (personality : List (String × String)) (message : String) (context : Context) :
    AssistantResponse :=
  let instructions := load_instructions name cfg fs
  let full_prompt :=
    build_context_prompt name instructions cfg.capabilities personality message context
  let ai_response :=
    generate_response b acfg svc full_prompt
      (some (cfg.preferred_model.getD "llama3.1:8b")) context none
  { message := strTrim ai_response, actions := ["message_processed"] }

/-- Outer response envelope built by `CrystalOrchestrator.process_message`;
an absent `error` key is `false`. -/
structure Envelope where
  message : String
  assistant : String
  error : Bool
  actions_taken : List String
  deriving Repr, DecidableEq

/-- A persona registered with the orchestrator: `Except.error` models an
exception escaping its `process_message`. -/
abbrev PersonaFun := String → Context → Except String AssistantResponse

/-- Embeds `CrystalOrchestrator.process_message` (orchestrator.py lines
76-137) over an initialized registry, additionally returning the names of
the personas whose `process_message` was invoked.  Unknown names produce the
error envelope of lines 93-98; a raised persona exception is caught and
converted at lines 125-137. -/
def orchestrator_process_message (registry : List (String × PersonaFun))
    (assistant_name message : String) (context : Context) : Envelope × List String :=
  let name := strToLower assistant_name
  match registry.lookup name with
  | none =>
    ({ message := "Assistant \x27" ++ name ++ "\x27 not found. Available: "
          ++ joinSep ", " (registry.map Prod.fst),
       assistant := "system", error := true, actions_taken := [] }, [])
  | some f =>
    match f message context with
    | .ok resp =>
      ({ message := resp.message, assistant := name, error := false,
         actions_taken := resp.actions }, [name])
    | .error e =>
      ({ message := "Sorry, I encountered an error: " ++ e, assistant := name,
         error := true, actions_taken := [] }, [name])

/-- The Ruby persona configuration from `config/settings.py`. -/
def rubyConfig : AssistantConfig :=
  { instructions_file := some "crystal/assistants/instructions/ruby_instructions.md"
    preferred_model := some "gpt-4o-mini"
    capabilities :=
      [("schedule_management", "Manage calendars, appointments, and reminders"),
       ("file_organization", "Organize, search, and manage files and folders"),
       ("task_automation", "Create and execute automated workflows"),
       ("system_monitoring", "Monitor system resources and performance"),
       ("general_assistance", "Provide helpful information and support")] }

/-- Filesystem oracle on which no file exists. -/
def fsMissing : String → Option String := fun _ => none

/-- The Ruby persona as registered by `_initialize_assistants`: a
`CrystalAssistant` with the Ruby configuration (with missing instructions
the parsed trait map is empty). -/
def rubyPersona (b : Backends) (acfg : AIConfig) (svc : AIService)
    (fs : String → Option String) : PersonaFun :=
  fun m c => .ok (assistant_process_message b acfg svc fs "Ruby" rubyConfig [] m c)

/-- Backends whose remote completion is a single space character. -/
def bWhitespaceContent : Backends :=
  ⟨fun _ _ _ => .error "connection refused", fun _ _ _ => .ok (some " ")⟩

/-- Backends whose remote completion is the fixed text `Hello`. -/
def bHello : Backends :=
  ⟨fun _ _ _ => .error "connection refused", fun _ _ _ => .ok (some "Hello")⟩

/-- C5 counterexample: a Ruby-backed orchestrator whose remote backend
answers a single space character produces a success-shaped envelope whose
`message` is the empty string (the reply is stripped at
crystal_assistant.py line 236), so envelopes do not always carry a
non-empty message. -/
theorem orchestrator_empty_message_on_whitespace_content :
    (orchestrator_process_message
      [("ruby", rubyPersona bWhitespaceContent cfgDefault svcRemoteOnly fsMissing)]
      "Ruby" "hi" []).1 =
    { message := "", assistant := "ruby", error := false,
      actions_taken := ["message_processed"] } := by
  rfl

/-- C5 (amended): every envelope produced by `Orchestrator.process_message`
carries a non-empty message — unconditionally on the unknown-persona path
and the caught-exception path, and on the success path provided the persona
reply is non-empty (with `CrystalAssistant` personas the reply is the
AI text after stripping, which can be empty when a backend answers empty or
all-whitespace content). -/
theorem orchestrator_message_nonempty_of_persona_nonempty
    (registry : List (String × PersonaFun)) (assistant_name message : String)
    (context : Context)
    (h : ∀ f, registry.lookup (strToLower assistant_name) = some f →
      ∀ resp, f message context = .ok resp → resp.message ≠ "") :
    (orchestrator_process_message registry assistant_name message context).1.message ≠ "" := by
  simp only [orchestrator_process_message]
  split
  · exact str_append_ne_empty _ _ (str_append_ne_empty _ _ (str_append_ne_empty _ _ (by decide)))
  · rename_i f hf
    split
    · rename_i resp hresp
      exact h f hf resp hresp
    · exact str_append_ne_empty _ _ (by decide)

/-- Witness for the amended C5 at a concrete input. -/
theorem orchestrator_message_nonempty_of_persona_nonempty_witness :
    (orchestrator_process_message
      [("ruby", fun _ _ => .ok (AssistantResponse.mk "hello" ["message_processed"]))]
      "Ruby" "hi" []).1.message ≠ "" :=
  orchestrator_message_nonempty_of_persona_nonempty
    [("ruby", fun _ _ => .ok (AssistantResponse.mk "hello" ["message_processed"]))]
    "Ruby" "hi" []
    (by
      intro f hf resp hresp
      rw [show (List.lookup (strToLower "Ruby")
        [("ruby", (fun _ _ => .ok (AssistantResponse.mk "hello" ["message_processed"]) : PersonaFun))])
        = some (fun _ _ => .ok (AssistantResponse.mk "hello" ["message_processed"])) from rfl] at hf
      have hfe : f = fun _ _ => .ok (AssistantResponse.mk "hello" ["message_processed"]) :=
        (Option.some.inj hf).symm
      subst hfe
      have hre : AssistantResponse.mk "hello" ["message_processed"] = resp :=
        Except.ok.inj hresp
      rw [← hre]
      decide)

/-- C6: routing an unknown (lower-cased) persona name returns an
error-flagged envelope whose message lists the registered persona names, and
invokes no persona at all. -/
theorem orchestrator_unknown_persona_error_envelope
    (registry : List (String × PersonaFun)) (assistant_name message : String)
    (context : Context)
    (h : registry.lookup (strToLower assistant_name) = none) :
    (orchestrator_process_message registry assistant_name message context).1.error = true ∧
    (orchestrator_process_message registry assistant_name message context).1.message
      = "Assistant \x27" ++ strToLower assistant_name ++ "\x27 not found. Available: "
          ++ joinSep ", " (registry.map Prod.fst) ∧
    (orchestrator_process_message registry assistant_name message context).2 = [] := by
  simp [orchestrator_process_message, h]

/-- Witness for C6 at a concrete input: the name `Topaz` is not registered. -/
theorem orchestrator_unknown_persona_error_envelope_witness :
    (orchestrator_process_message
      [("ruby", rubyPersona bBothOk cfgDefault svcBoth fsMissing)] "Topaz" "hi" []).1.error
        = true ∧
    (orchestrator_process_message
      [("ruby", rubyPersona bBothOk cfgDefault svcBoth fsMissing)] "Topaz" "hi" []).1.message
        = "Assistant \x27topaz\x27 not found. Available: ruby" ∧
    (orchestrator_process_message
      [("ruby", rubyPersona bBothOk cfgDefault svcBoth fsMissing)] "Topaz" "hi" []).2 = [] := by
  have h := orchestrator_unknown_persona_error_envelope
    [("ruby", rubyPersona bBothOk cfgDefault svcBoth fsMissing)] "Topaz" "hi" [] rfl
  exact ⟨h.1, h.2.1.trans (by rfl), h.2.2⟩

/-- C7 counterexample: with the configured instructions file missing, the
persona envelope is success-shaped but its message is the AI reply, which
need not contain the persona name — here the backend answers `Hello` and
the message does not contain `Ruby`. -/
theorem missing_instructions_message_lacks_persona_name :
    (strContainsSub (assistant_process_message bHello cfgDefault svcRemoteOnly fsMissing
      "Ruby" rubyConfig [] "hi" []).message "Ruby") = false ∧
    (assistant_process_message bHello cfgDefault svcRemoteOnly fsMissing
      "Ruby" rubyConfig [] "hi" []).actions = ["message_processed"] := by
  exact ⟨rfl, rfl⟩

/-- String append is associative. -/
theorem str_append_assoc (a b c : String) : (a ++ b) ++ c = a ++ (b ++ c) := by
  apply String.ext
  show (a.data ++ b.data) ++ c.data = a.data ++ (b.data ++ c.data)
  exact List.append_assoc _ _ _

/-- Joining a list with at least two elements splits off its head. -/
theorem joinSep_cons (sep x : String) (l : List String) (hl : l ≠ []) :
    joinSep sep (x :: l) = x ++ (sep ++ joinSep sep l) := by
  cases l with
  | nil => exact absurd rfl hl
  | cons y ys => exact str_append_assoc x sep (joinSep sep (y :: ys))

/-- The generic greeting is a non-empty string. -/
theorem generic_greeting_ne_empty (name : String) : generic_greeting name ≠ "" :=
  str_append_ne_empty _ _ (str_append_ne_empty _ _ (by decide))

/-- C7 (amended): when the configured instructions file is missing,
unreadable or unconfigured, `process_message` still returns the
success-shaped envelope (`actions = ["message_processed"]`, no error flag);
the generic greeting — which contains the persona name — is substituted as
the instruction text and becomes a prefix of the prompt sent to the AI
backend, while the envelope message is the AI reply. -/
theorem missing_instructions_success_envelope_greeting_in_prompt
    (b : Backends) (acfg : AIConfig) (svc : AIService) (fs : String → Option String)
    (name : String) (cfg : AssistantConfig) (personality : List (String × String))
    (message : String) (context : Context)
    (h : cfg.instructions_file = none
      ∨ ∃ f, cfg.instructions_file = some f ∧ (f = "" ∨ fs f = none)) :
    (assistant_process_message b acfg svc fs name cfg personality message context).actions
        = ["message_processed"] ∧
    load_instructions name cfg fs = generic_greeting name ∧
    (∃ rest, build_context_prompt name (load_instructions name cfg fs) cfg.capabilities
        personality message context = generic_greeting name ++ rest) ∧
    (∃ p q, generic_greeting name = p ++ name ++ q) := by
  have hload : load_instructions name cfg fs = generic_greeting name := by
    rcases h with h | ⟨f, hf, h2⟩
    · simp only [load_instructions, h]
    · rcases h2 with h2 | h2
      · subst h2
        simp only [load_instructions, hf]
        split
        · rfl
        · rename_i hcond
          exact absurd (by trivial) hcond
      · simp only [load_instructions, hf, h2]
        split
        · rfl
        · rfl
  refine ⟨rfl, hload, ?_, ⟨"I am ", ", your assistant. How can I help you today?", rfl⟩⟩
  rw [hload]
  simp only [build_context_prompt, if_pos (generic_greeting_ne_empty name),
    List.append_assoc, List.singleton_append, List.cons_append]
  rw [joinSep_cons]
  · exact ⟨_, rfl⟩
  · intro hc
    have h3 := congrArg List.length hc
    simp only [List.length_append, List.length_cons, List.length_nil] at h3
    omega

/-- Witness for the amended C7 at a concrete input: the Ruby configuration
with its instructions file absent from the filesystem. -/
theorem missing_instructions_success_envelope_greeting_in_prompt_witness :
    (assistant_process_message bHello cfgDefault svcRemoteOnly fsMissing "Ruby"
        rubyConfig [] "hi" []).actions = ["message_processed"] ∧
    load_instructions "Ruby" rubyConfig fsMissing = generic_greeting "Ruby" ∧
    (∃ rest, build_context_prompt "Ruby" (load_instructions "Ruby" rubyConfig fsMissing)
        rubyConfig.capabilities [] "hi" [] = generic_greeting "Ruby" ++ rest) ∧
    (∃ p q, generic_greeting "Ruby" = p ++ "Ruby" ++ q) :=
  missing_instructions_success_envelope_greeting_in_prompt bHello cfgDefault svcRemoteOnly
    fsMissing "Ruby" rubyConfig [] "hi" []
    (Or.inr ⟨"crystal/assistants/instructions/ruby_instructions.md", rfl, Or.inr rfl⟩)

/-! Task scheduler (`crystal/services/task_scheduler.py`).  The external
scheduling library is modelled by the job-id set it stores (`add_job` with
`replace_existing=True` keeps ids unique; `remove_job` raises on an unknown
id), and its cron-expression parser by the oracle `cron_ok`.  Interval
keyword arguments are well-typed by construction, so `IntervalTrigger`
always constructs; `DateTrigger` likewise.  The `created` timestamp of a
metadata entry is wall-clock diagnostic data and is not modelled. -/

/-- Interval keyword arguments (`seconds`/`minutes`/`hours`/`days`/`weeks`). -/
structure IntervalKwargs where
  weeks : Nat := 0
  days : Nat := 0
  hours : Nat := 0
  minutes : Nat := 0
  seconds : Nat := 0
  deriving Repr, DecidableEq

/-- Trigger kind and parameters stored in a metadata entry. -/
inductive TriggerInfo where
  | cron (expression : String)
  | interval (kwargs : IntervalKwargs)
  | one_time (run_date : String)
  deriving Repr, DecidableEq

/-- One `active_tasks` metadata entry (type, trigger parameters and
description). -/
structure TaskEntry where
  kind : TriggerInfo
  description : String
  deriving Repr, DecidableEq

/-- State of a `TaskScheduler`: the ids known to the scheduling library and
the in-memory `active_tasks` metadata dict. -/
structure SchedulerState where
  jobs : List String
  active_tasks : List (String × TaskEntry)
  is_running : Bool
  deriving Repr, DecidableEq

/-- The library `add_job` with `replace_existing=True`: the id set gains the
id if absent. -/
def aps_add_job (jobs : List String) (id : String) : List String :=
  if jobs.contains id then jobs else jobs ++ [id]

/-- The library `remove_job`: `none` models the exception raised for an
unknown id. -/
def aps_remove_job (jobs : List String) (id : String) : Option (List String) :=
  if jobs.contains id then some (jobs.filter (fun j => j ≠ id)) else none

/-- Python dict assignment `d[k] = v` on an association list: replaces the
value in place if the key is present, otherwise appends. -/
def dict_insert {α : Type} (k : String) (v : α) :
    List (String × α) → List (String × α)
  | [] => [(k, v)]
  | (k2, v2) :: rest =>
    if k2 = k then (k, v) :: rest else (k2, v2) :: dict_insert k v rest

/-- Embeds `TaskScheduler.schedule_interval_task` (task_scheduler.py lines
128-176): add (or replace) the job, then record the metadata entry. -/
def schedule_interval_task (st : SchedulerState) (task_id : String)
    (interval_kwargs : IntervalKwargs) (description : String) :
    SchedulerState × Bool :=
  ({ st with
      jobs := aps_add_job st.jobs task_id,
      active_tasks := dict_insert task_id
        ⟨TriggerInfo.interval interval_kwargs, description⟩ st.active_tasks }, true)

/-- Embeds `TaskScheduler.schedule_cron_task` (task_scheduler.py lines
71-126); a cron expression rejected by the library parser leaves the state
unchanged and returns `False`. -/
def schedule_cron_task (cron_ok : String → Bool) (st : SchedulerState)
    (task_id : String) (cron_expression : String) (description : String) :
    SchedulerState × Bool :=
  if cron_ok cron_expression then
    ({ st with
        jobs := aps_add_job st.jobs task_id,
        active_tasks := dict_insert task_id
          ⟨TriggerInfo.cron cron_expression, description⟩ st.active_tasks }, true)
  else (st, false)

/-- Embeds `TaskScheduler.schedule_one_time_task` (task_scheduler.py lines
178-231). -/
def schedule_one_time_task (st : SchedulerState) (task_id : String)
    (run_date : String) (description : String) : SchedulerState × Bool :=
  ({ st with
      jobs := aps_add_job st.jobs task_id,
      active_tasks := dict_insert task_id
        ⟨TriggerInfo.one_time run_date, description⟩ st.active_tasks }, true)

/-- Embeds `TaskScheduler.cancel_task` (task_scheduler.py lines 233-250): if
`remove_job` raises, the exception is caught and the metadata is left
untouched; otherwise the metadata entry is deleted as well. -/
def cancel_task (st : SchedulerState) (task_id : String) : SchedulerState × Bool :=
  match aps_remove_job st.jobs task_id with
  | none => (st, false)
  | some jobs2 =>
    ({ st with
        jobs := jobs2,
        active_tasks := st.active_tasks.filter (fun p => p.1 ≠ task_id) }, true)

/-- Embeds `TaskScheduler.get_scheduled_tasks` (task_scheduler.py lines
252-258). -/
structure ScheduledTasksView where
  active_tasks : List (String × TaskEntry)
  scheduler_running : Bool
  jobs_count : Nat
  deriving Repr, DecidableEq

/-- The introspection listing returned by `get_scheduled_tasks`. -/
def get_scheduled_tasks (st : SchedulerState) : ScheduledTasksView :=
  ⟨st.active_tasks, st.is_running, st.jobs.length⟩

/-- After `add_job`, the id is present. -/
theorem contains_aps_add_job (jobs : List String) (id : String) :
    (aps_add_job jobs id).contains id = true := by
  simp only [aps_add_job]
  split
  · assumption
  · simp

/-- Filtering a key out of an association list empties its lookup. -/
theorem lookup_filter_self {α : Type} (k : String) (l : List (String × α)) :
    List.lookup k (l.filter (fun p => p.1 ≠ k)) = none := by
  induction l with
  | nil => rfl
  | cons p rest ih =>
    rw [List.filter_cons]
    split
    · rename_i hp
      have hne : p.1 ≠ k := of_decide_eq_true hp
      rcases p with ⟨k2, v2⟩
      rw [List.lookup]
      rw [show (k == k2) = false from beq_eq_false_iff_ne.mpr (fun he => hne he.symm)]
      exact ih
    · exact ih

/-- Looking up the key just assigned by `dict_insert` yields the new value. -/
theorem lookup_dict_insert_self {α : Type} (k : String) (v : α)
    (l : List (String × α)) : List.lookup k (dict_insert k v l) = some v := by
  induction l with
  | nil =>
    rw [dict_insert, List.lookup]
    rw [show (k == k) = true from beq_self_eq_true k]
  | cons p rest ih =>
    rcases p with ⟨k2, v2⟩
    rw [dict_insert]
    split
    · rw [List.lookup]
      rw [show (k == k) = true from beq_self_eq_true k]
    · rename_i hne
      rw [List.lookup]
      rw [show (k == k2) = false from beq_eq_false_iff_ne.mpr (fun he => hne he.symm)]
      exact ih

/-- A key present after `dict_insert` was present before or is the inserted
key. -/
theorem mem_keys_dict_insert {α : Type} (x k : String) (v : α)
    (l : List (String × α)) (h : x ∈ (dict_insert k v l).map Prod.fst) :
    x ∈ l.map Prod.fst ∨ x = k := by
  induction l with
  | nil =>
    simp only [dict_insert, List.map_cons, List.map_nil, List.mem_cons,
      List.not_mem_nil, or_false] at h
    exact Or.inr h
  | cons p rest ih =>
    rcases p with ⟨k2, v2⟩
    rw [dict_insert] at h
    split at h
    · rename_i he
      subst he
      simp only [List.map_cons, List.mem_cons] at h ⊢
      rcases h with h | h
      · exact Or.inr h
      · exact Or.inl (Or.inr h)
    · simp only [List.map_cons, List.mem_cons] at h ⊢
      rcases h with h | h
      · exact Or.inl (Or.inl h)
      · rcases ih h with hh | hh
        · exact Or.inl (Or.inr hh)
        · exact Or.inr hh

/-- `dict_insert` preserves distinctness of the keys. -/
theorem keys_nodup_dict_insert {α : Type} (k : String) (v : α)
    (l : List (String × α)) (h : (l.map Prod.fst).Nodup) :
    ((dict_insert k v l).map Prod.fst).Nodup := by
  induction l with
  | nil => simp [dict_insert]
  | cons p rest ih =>
    rcases p with ⟨k2, v2⟩
    simp only [List.map_cons, List.nodup_cons] at h
    rw [dict_insert]
    split
    · rename_i he
      subst he
      simp only [List.map_cons, List.nodup_cons]
      exact h
    · rename_i hne
      simp only [List.map_cons, List.nodup_cons]
      refine ⟨?_, ih h.2⟩
      intro hmem
      rcases mem_keys_dict_insert k2 k v rest hmem with hh | hh
      · exact h.1 hh
      · exact hne hh

/-- After `dict_insert`, the assigned key occurs exactly once among the
keys, provided they were distinct beforehand. -/
theorem count_keys_dict_insert {α : Type} (k : String) (v : α)
    (l : List (String × α)) (h : (l.map Prod.fst).Nodup) :
    ((dict_insert k v l).map Prod.fst).count k = 1 := by
  induction l with
  | nil => simp [dict_insert]
  | cons p rest ih =>
    rcases p with ⟨k2, v2⟩
    simp only [List.map_cons, List.nodup_cons] at h
    rw [dict_insert]
    split
    · rename_i he
      subst he
      simp only [List.map_cons, List.count_cons_self]
      have : (rest.map Prod.fst).count k2 = 0 := List.count_eq_zero.mpr h.1
      omega
    · rename_i hne
      simp only [List.map_cons]
      rw [List.count_cons_of_ne (fun he => hne he.symm)]
      exact ih h.2

/-- C8: from any scheduler state with distinct metadata keys, (a) scheduling
a job and then cancelling the same id leaves the introspection listing
without an entry for that id; (b) scheduling the same id twice with interval
triggers leaves exactly one entry, the one of the second call; (c) the same
holds when the id is re-scheduled with a different trigger kind (one-time
after interval). -/
theorem scheduler_cancel_removes_and_reschedule_replaces
    (st : SchedulerState) (task_id : String) (kw1 kw2 : IntervalKwargs)
    (d1 d2 rd d3 : String)
    (hnodup : (st.active_tasks.map Prod.fst).Nodup) :
    List.lookup task_id
      (get_scheduled_tasks
        (cancel_task (schedule_interval_task st task_id kw1 d1).1 task_id).1).active_tasks
      = none ∧
    (((get_scheduled_tasks
        (schedule_interval_task (schedule_interval_task st task_id kw1 d1).1
          task_id kw2 d2).1).active_tasks.map Prod.fst).count task_id = 1 ∧
     List.lookup task_id
       (get_scheduled_tasks
         (schedule_interval_task (schedule_interval_task st task_id kw1 d1).1
           task_id kw2 d2).1).active_tasks
       = some ⟨TriggerInfo.interval kw2, d2⟩) ∧
    (((get_scheduled_tasks
        (schedule_one_time_task (schedule_interval_task st task_id kw1 d1).1
          task_id rd d3).1).active_tasks.map Prod.fst).count task_id = 1 ∧
     List.lookup task_id
       (get_scheduled_tasks
         (schedule_one_time_task (schedule_interval_task st task_id kw1 d1).1
           task_id rd d3).1).active_tasks
       = some ⟨TriggerInfo.one_time rd, d3⟩) := by
  refine ⟨?_, ⟨?_, ?_⟩, ⟨?_, ?_⟩⟩
  · simp only [get_scheduled_tasks, schedule_interval_task, cancel_task,
      aps_remove_job, contains_aps_add_job, if_true]
    exact lookup_filter_self task_id _
  · simp only [get_scheduled_tasks, schedule_interval_task]
    exact count_keys_dict_insert task_id _ _
      (keys_nodup_dict_insert task_id _ st.active_tasks hnodup)
  · simp only [get_scheduled_tasks, schedule_interval_task]
    exact lookup_dict_insert_self task_id _ _
  · simp only [get_scheduled_tasks, schedule_interval_task, schedule_one_time_task]
    exact count_keys_dict_insert task_id _ _
      (keys_nodup_dict_insert task_id _ st.active_tasks hnodup)
  · simp only [get_scheduled_tasks, schedule_interval_task, schedule_one_time_task]
    exact lookup_dict_insert_self task_id _ _

/-- Witness for C8 at a concrete input: the empty scheduler state and the
job id `X`. -/
theorem scheduler_cancel_removes_and_reschedule_replaces_witness :
    List.lookup "X"
      (get_scheduled_tasks
        (cancel_task (schedule_interval_task ⟨[], [], true⟩ "X" { minutes := 5 } "a").1
          "X").1).active_tasks = none ∧
    (((get_scheduled_tasks
        (schedule_interval_task
          (schedule_interval_task ⟨[], [], true⟩ "X" { minutes := 5 } "a").1
          "X" { hours := 1 } "b").1).active_tasks.map Prod.fst).count "X" = 1 ∧
     List.lookup "X"
       (get_scheduled_tasks
         (schedule_interval_task
           (schedule_interval_task ⟨[], [], true⟩ "X" { minutes := 5 } "a").1
           "X" { hours := 1 } "b").1).active_tasks
       = some ⟨TriggerInfo.interval { hours := 1 }, "b"⟩) ∧
    (((get_scheduled_tasks
        (schedule_one_time_task
          (schedule_interval_task ⟨[], [], true⟩ "X" { minutes := 5 } "a").1
          "X" "2026-01-01T00:00:00" "c").1).active_tasks.map Prod.fst).count "X" = 1 ∧
     List.lookup "X"
       (get_scheduled_tasks
         (schedule_one_time_task
           (schedule_interval_task ⟨[], [], true⟩ "X" { minutes := 5 } "a").1
           "X" "2026-01-01T00:00:00" "c").1).active_tasks
       = some ⟨TriggerInfo.one_time "2026-01-01T00:00:00", "c"⟩) :=
  scheduler_cancel_removes_and_reschedule_replaces ⟨[], [], true⟩ "X"
    { minutes := 5 } { hours := 1 } "a" "b" "2026-01-01T00:00:00" "c" (by decide)

/-! File service (`crystal/services/file_service.py`).  Directory paths are
modelled as resolved segment lists (`Path.resolve()` is applied before the
containment check, so the embedding takes paths already in resolved form);
`Path.is_relative_to(allowed)` is then segment-list prefix containment.  The
operation bodies after the guards (the organizing loop, the duplicate scan
and the filename search) and the filesystem itself are oracles: the claims
under verification concern only the guards, and quantifying over every body
behaviour makes the frame property strictly stronger. -/

/-- A resolved directory path, as its list of segments. -/
abbrev DirPath := List String

/-- The settings fields read by `FileService`
(`allow_file_operations`, `allowed_directories`). -/
structure FileSettings where
  allow_file_operations : Bool
  allowed_directories : List DirPath

/-- Embeds `FileService._is_directory_allowed` (file_service.py lines
270-276). -/
def is_directory_allowed (s : FileSettings) (directory : DirPath) : Bool :=
  if !s.allow_file_operations then false
  else s.allowed_directories.any (fun allowed => allowed.isPrefixOf directory)

/-- The fields of a `FileService` result dict that the claims inspect. -/
structure OpResult where
  success : Bool
  error : Option String
  deriving Repr, DecidableEq

/-- Rendering of a path for error messages. -/
def renderPath (p : DirPath) : String := joinSep "/" p

/-- Embeds `FileService.organize_directory` (file_service.py lines 47-149):
the allow-list guard and the existence guard return early without touching
the filesystem; the organizing loop (lines 83-141) is the oracle
`organize_body`, which receives the filesystem and returns the one it
leaves behind. -/
def organize_directory {FS : Type} (s : FileSettings)
    (dir_exists_and_is_dir : FS → DirPath → Bool)
    (organize_body : FS → DirPath → Bool → OpResult × FS)
    (fs : FS) (directory : DirPath) (create_subdirs : Bool) : OpResult × FS :=
  if !is_directory_allowed s directory then
    ({ success := false,
       error := some ("Directory " ++ renderPath directory
         ++ " is not in the allowed directories list") }, fs)
  else if !dir_exists_and_is_dir fs directory then
    ({ success := false,
       error := some ("Directory " ++ renderPath directory
         ++ " does not exist or is not a directory") }, fs)
  else organize_body fs directory create_subdirs

/-- Embeds `FileService.find_duplicates` (file_service.py lines 151-208);
the read-only scan after the guards is the oracle `scan_body`. -/
def find_duplicates {FS : Type} (s : FileSettings)
    (dir_exists : FS → DirPath → Bool) (scan_body : FS → DirPath → OpResult)
    (fs : FS) (directory : DirPath) : OpResult :=
  if !is_directory_allowed s directory then
    { success := false, error := some "Directory not allowed" }
  else if !dir_exists fs directory then
    { success := false, error := some "Directory does not exist" }
  else scan_body fs directory

/-- Embeds `FileService.search_files` (file_service.py lines 210-268); the
read-only search after the guard is the oracle `search_body`. -/
def search_files {FS : Type} (s : FileSettings)
    (search_body : FS → DirPath → String → Bool → OpResult)
    (fs : FS) (directory : DirPath) (pat : String) (include_content : Bool) :
    OpResult :=
  if !is_directory_allowed s directory then
    { success := false, error := some "Directory not allowed" }
  else search_body fs directory pat include_content

/-- C9: for every directory not contained in any configured allowed root,
`organize_directory` reports failure and leaves the filesystem exactly as it
was, whatever the organizing loop would have done. -/
theorem organize_directory_outside_allowlist_no_mutation {FS : Type}
    (s : FileSettings) (dir_exists_and_is_dir : FS → DirPath → Bool)
    (organize_body : FS → DirPath → Bool → OpResult × FS)
    (fs : FS) (directory : DirPath) (create_subdirs : Bool)
    (h : ∀ a ∈ s.allowed_directories, a.isPrefixOf directory = false) :
    (organize_directory s dir_exists_and_is_dir organize_body fs directory
        create_subdirs).1.success = false ∧
    (organize_directory s dir_exists_and_is_dir organize_body fs directory
        create_subdirs).2 = fs := by
  have hall : is_directory_allowed s directory = false := by
    simp only [is_directory_allowed]
    split
    · rfl
    · simp only [List.any_eq_false]
      intro a ha
      simp [h a ha]
  simp [organize_directory, hall]

/-- Witness for C9 at a concrete input: `/etc` is outside the allowed root
`/home/user/Documents`, and the filesystem (a one-cell state) is returned
unchanged even though the body oracle would have changed it. -/
theorem organize_directory_outside_allowlist_no_mutation_witness :
    (@organize_directory Nat ⟨true, [["home", "user", "Documents"]]⟩
        (fun _ _ => true) (fun _ _ _ => ({ success := true, error := none }, 99))
        0 ["etc"] true).1.success = false ∧
    (@organize_directory Nat ⟨true, [["home", "user", "Documents"]]⟩
        (fun _ _ => true) (fun _ _ _ => ({ success := true, error := none }, 99))
        0 ["etc"] true).2 = 0 :=
  organize_directory_outside_allowlist_no_mutation ⟨true, [["home", "user", "Documents"]]⟩
    (fun _ _ => true) (fun _ _ _ => ({ success := true, error := none }, 99))
    0 ["etc"] true (by decide)

/-- C10: with `allow_file_operations = false`, every public `FileService`
operation reports failure for every directory — including directories inside
the allowed roots — and `organize_directory` leaves the filesystem
unchanged. -/
theorem file_ops_denied_when_operations_disabled {FS : Type}
    (s : FileSettings) (dir_exists_and_is_dir dir_exists : FS → DirPath → Bool)
    (organize_body : FS → DirPath → Bool → OpResult × FS)
    (scan_body : FS → DirPath → OpResult)
    (search_body : FS → DirPath → String → Bool → OpResult)
    (fs : FS) (directory : DirPath) (create_subdirs : Bool)
    (pat : String) (include_content : Bool)
    (h : s.allow_file_operations = false) :
    (organize_directory s dir_exists_and_is_dir organize_body fs directory
        create_subdirs).1.success = false ∧
    (organize_directory s dir_exists_and_is_dir organize_body fs directory
        create_subdirs).2 = fs ∧
    (find_duplicates s dir_exists scan_body fs directory).success = false ∧
    (search_files s search_body fs directory pat include_content).success = false := by
  have hall : is_directory_allowed s directory = false := by
    simp [is_directory_allowed, h]
  simp [organize_directory, find_duplicates, search_files, hall]

/-- Witness for C10 at a concrete input: the directory lies inside the
configured allowed root, yet all three operations are refused. -/
theorem file_ops_denied_when_operations_disabled_witness :
    (@organize_directory Nat ⟨false, [["home"]]⟩ (fun _ _ => true)
        (fun _ _ _ => ({ success := true, error := none }, 99))
        0 ["home", "docs"] true).1.success = false ∧
    (@organize_directory Nat ⟨false, [["home"]]⟩ (fun _ _ => true)
        (fun _ _ _ => ({ success := true, error := none }, 99))
        0 ["home", "docs"] true).2 = 0 ∧
    (@find_duplicates Nat ⟨false, [["home"]]⟩ (fun _ _ => true)
        (fun _ _ => { success := true, error := none }) 0 ["home", "docs"]).success
        = false ∧
    (@search_files Nat ⟨false, [["home"]]⟩
        (fun _ _ _ _ => { success := true, error := none }) 0 ["home", "docs"]
        "report" false).success = false :=
  file_ops_denied_when_operations_disabled ⟨false, [["home"]]⟩ (fun _ _ => true)
    (fun _ _ => true) (fun _ _ _ => ({ success := true, error := none }, 99))
    (fun _ _ => { success := true, error := none })
    (fun _ _ _ _ => { success := true, error := none })
    0 ["home", "docs"] true "report" false rfl

end Crystal
